import Mathlib

/-!
Verification of the Entity tree engine of `hbp_service_client`
(`hbp_service_client/storage_service/entity.py`), via a shallow embedding.

The embedding follows the Python source closely:
  * `Entity` mirrors the attributes set in `Entity.__init__` plus the two
    private provenance attributes `_disk_location` and `_from_service`.
    The `parent` back-reference is not represented as a field (it would make
    the value graph cyclic); where an operation reads `self.parent.uuid`
    the embedding threads that value explicitly.
  * The storage-service gateway (the `ApiClient`) is modelled as a record of
    pure functions (`Env`): the service's responses are chosen by the
    environment, and the operations under verification are deterministic
    functions of it.
  * Python `while` loops over a mutable work list are embedded as
    fuel-indexed structural recursions; exhausted fuel is reported as the
    distinguished error `.fuel` (modelling a loop that never terminates,
    which cannot happen under the finiteness hypotheses of the theorems).
-/

namespace HbpStorage

/-- Errors raised by the entity engine, mirroring
`hbp_service_client/storage_service/exceptions.py` plus OS-level failures.
`.fuel` is the embedding's marker for a non-terminating loop. -/
inductive EntityError where
  | argument (msg : String)
  | invalidOperation (msg : String)
  | entityError (msg : String)
  | uploadError (msg : String)
  | osError (msg : String)
  | notFound (msg : String)
  | fuel
deriving DecidableEq, Repr

/-- A structured record as returned by the service for one entity; the
dictionary handed to `Entity.from_dictionary`.  The fields are exactly the
required keys of `from_dictionary`; service records always carry them. -/
structure EntityDict where
  entity_type : String
  uuid : Option String
  name : String
  description : Option String
  created_by : Option String
  modified_by : Option String
deriving DecidableEq, Repr

/-- One page of `list_folder_content` output:
`{'results': [...], 'next': marker-or-None, ...}`. -/
structure Page where
  results : List EntityDict
  next : Option String
deriving Repr

/-- An in-memory entity tree node, mirroring `Entity.__init__` (which sets
`entity_type`, `uuid`, `name`, `description`, `created_by`, `modified_by`,
`children = []`, `_disk_location = None`, `_from_service = True`).
`children` makes this a rose tree, hence a nested inductive. -/
inductive Entity where
  | mk (entity_type : String) (uuid : Option String) (name : String)
       (description : Option String) (created_by : Option String)
       (modified_by : Option String) (children : List Entity)
       (disk_location : Option String) (from_service : Bool)

namespace Entity

def entity_type : Entity → String
  | .mk t _ _ _ _ _ _ _ _ => t

def uuid : Entity → Option String
  | .mk _ u _ _ _ _ _ _ _ => u

def name : Entity → String
  | .mk _ _ n _ _ _ _ _ _ => n

def description : Entity → Option String
  | .mk _ _ _ d _ _ _ _ _ => d

def created_by : Entity → Option String
  | .mk _ _ _ _ c _ _ _ _ => c

def modified_by : Entity → Option String
  | .mk _ _ _ _ _ m _ _ _ => m

def children : Entity → List Entity
  | .mk _ _ _ _ _ _ cs _ _ => cs

def disk_location : Entity → Option String
  | .mk _ _ _ _ _ _ _ l _ => l

def from_service : Entity → Bool
  | .mk _ _ _ _ _ _ _ _ s => s

/-- Replace the `children` attribute (`self.children = ...`). -/
def withChildren (e : Entity) (cs : List Entity) : Entity :=
  match e with
  | .mk t u n d c m _ l s => .mk t u n d c m cs l s

/-- Replace the `uuid` attribute (`self.uuid = ...`). -/
def withUuid (e : Entity) (u : Option String) : Entity :=
  match e with
  | .mk t _ n d c m cs l s => .mk t u n d c m cs l s

/-- Replace the `_disk_location` attribute. -/
def withDiskLocation (e : Entity) (l : Option String) : Entity :=
  match e with
  | .mk t u n d c m cs _ s => .mk t u n d c m cs l s

/-- Replace the `_from_service` attribute. -/
def withFromService (e : Entity) (s : Bool) : Entity :=
  match e with
  | .mk t u n d c m cs l _ => .mk t u n d c m cs l s

/-- Embeds `Entity._SUBTREE_TYPES = ['project', 'folder']`. -/
def SUBTREE_TYPES : List String := ["project", "folder"]

/-- Embeds `Entity.from_dictionary`: build an entity from a structured record.
On the typed record `EntityDict` all required keys are present, so the
`TypeError`/`KeyError` branch of the source cannot fire. -/
def from_dictionary (d : EntityDict) : Entity :=
  .mk d.entity_type d.uuid d.name d.description d.created_by d.modified_by
    [] none true

end Entity

/-! ### Local filesystem model (`os.path`, `os.listdir`) -/

/-- What a filesystem path can point at: a regular file (with its content),
a directory, or some other node kind (socket, device, ...). -/
inductive FSNode where
  | file (content : String)
  | dir
  | other
deriving DecidableEq, Repr

/-- A filesystem snapshot: each absolute path maps to a node or to nothing. -/
def FS : Type := String → Option FSNode

/-- Embeds `os.path.exists`.  In CPython `os.path.exists('')` is always `False`
(`os.stat('')` raises `FileNotFoundError`), whatever the filesystem holds. -/
def pyExists (fs : FS) (p : String) : Bool :=
  if p = "" then false else (fs p).isSome

/-- Embeds `os.path.isdir`. -/
def pyIsDir (fs : FS) (p : String) : Bool :=
  match fs p with
  | some .dir => true
  | _ => false

/-- Embeds `os.path.isfile`. -/
def pyIsFile (fs : FS) (p : String) : Bool :=
  match fs p with
  | some (.file _) => true
  | _ => false

/-- Split a character list on a separator, like `str.split` with a
one-character separator (an empty input gives one empty group). -/
def splitChar (sep : Char) : List Char → List (List Char)
  | [] => [[]]
  | c :: cs =>
    match splitChar sep cs with
    | [] => [[c]]
    | g :: gs => if c == sep then [] :: g :: gs else (c :: g) :: gs

/-- Embeds `os.path.isabs` on POSIX: the path starts with a slash. -/
def pyIsAbs (p : String) : Bool :=
  match p.data with
  | [] => false
  | c :: _ => c == '/'

/-- Whether `path[-1] == '/'`: the last character is a slash. -/
def pyLastIsSlash (p : String) : Bool :=
  match p.data.getLast? with
  | some c => c == '/'
  | none => false

/-- Embeds `path[:-1]`: the string without its last character. -/
def pyDropLast (p : String) : String := String.mk p.data.dropLast

/-- Embeds `os.path.basename`: the part after the last slash. -/
def pyBasename (p : String) : String :=
  String.mk ((splitChar '/' p.data).getLastD [])

/-- Embeds `os.path.join(a, b)` for a relative second component. -/
def pyJoin (a b : String) : String := a ++ "/" ++ b

/-- Update a filesystem snapshot with a regular file at `p`. -/
def fsWrite (fs : FS) (p : String) (content : String) : FS :=
  fun q => if q = p then some (.file content) else fs q

/-- Embeds `Entity.from_disk`: create an entity from the disk using an absolute
path.  Follows the source's check order: empty path, string type (inputs of
this model are always strings), absolute path, trailing-separator strip
(`path[-1] == '/'` then `path = path[:-1]`), existence, then the
directory/file classification.  The resulting entity gets
`_disk_location = path` and `_from_service = False`. -/
def from_disk (fs : FS) (path : String) : Except EntityError Entity :=
  if path = "" then .error (.argument "The path must not be empty.")
  else if ¬ pyIsAbs path then
    .error (.argument "The path must be given as an absolute path")
  else
    let path1 := if pyLastIsSlash path then pyDropLast path else path
    if ¬ pyExists fs path1 then
      .error (.argument "The given path does not exist on the disk.")
    else if pyIsDir fs path1 then
      .ok (((Entity.from_dictionary
        ⟨"folder", none, pyBasename path1, none, none, none⟩).withDiskLocation
          (some path1)).withFromService false)
    else if pyIsFile fs path1 then
      .ok (((Entity.from_dictionary
        ⟨"file", none, pyBasename path1, none, none, none⟩).withDiskLocation
          (some path1)).withFromService false)
    else
      .error (.argument "Only regular files and directories are supported.")

/-! ### Content-type guessing (`mimetypes.guess_type`) -/

/-- Excerpt of CPython's `mimetypes.types_map` covering the extensions used
here.  Notably there is no entry for `.ipynb` in the standard table. -/
def mimeTypesMap : List (String × String) :=
  [(".txt", "text/plain"), (".html", "text/html"), (".htm", "text/html"),
   (".json", "application/json"), (".png", "image/png"),
   (".jpg", "image/jpeg"), (".jpeg", "image/jpeg"), (".gif", "image/gif"),
   (".pdf", "application/pdf"), (".csv", "text/csv"), (".xml", "text/xml"),
   (".zip", "application/zip"), (".py", "text/x-python")]

/-- ASCII lowercasing of a string, character by character
(`str.lower` on the extensions that occur here). -/
def pyLower (s : String) : String := String.mk (s.data.map Char.toLower)

/-- The extension of a path, as `posixpath.splitext` computes it: the part
of the basename from its last dot, where leading dots of the basename do
not count (so `.bashrc` has no extension). -/
def fileExt (path : String) : Option String :=
  let base := (splitChar '/' path.data).getLastD []
  let stem := base.dropWhile (fun c => c == '.')
  if stem.contains '.' then
    some (String.mk ('.' :: (splitChar '.' stem).getLastD []))
  else none

/-- Embeds `mimetypes.guess_type(path)[0]`: look the extension up in the
type table, first as written, then lowercased. -/
def guessType (path : String) : Option String :=
  match fileExt path with
  | none => none
  | some ext =>
    match mimeTypesMap.lookup ext with
    | some t => some t
    | none => mimeTypesMap.lookup (pyLower ext)

/-! ### The gateway environment -/

/-- The storage-service gateway (`ApiClient`) and the other ambient
collaborators, as pure response functions.  `clientSet` models whether
`Entity.set_client` was called. -/
structure Env where
  clientSet : Bool
  /-- Embeds `list_folder_content(uuid, page=page, ordering=ordering)` in its
  pagination use: arguments are the container uuid, the page number and the
  ordering. -/
  listFolderContent : Option String → Nat → String → Page
  /-- Fuel bound for the pagination loop of `explore_children`. -/
  pageFuel : Nat
  /-- Embeds `list_folder_content(parent, entity_type=..., name=...)['count']`:
  the filtered-children count used by `upload`'s collision guard. -/
  countOf : Option String → String → String → Nat
  /-- Embeds `get_entity_by_query(path=...)`. -/
  queryByPath : String → Except EntityError EntityDict
  /-- Embeds `get_entity_by_query(uuid=...)`. -/
  queryByUuid : String → Except EntityError EntityDict
  /-- uuid returned by `create_folder(name, parent)`. -/
  newFolderUuid : String → Option String → String
  /-- uuid returned by `create_file(name, parent, content_type)`. -/
  newFileUuid : String → Option String → String → String
  /-- Embeds `get_signed_url(file_id)`. -/
  signedUrlOf : Option String → String
  /-- the byte stream obtained from `download_signed_url(url)`. -/
  contentOf : String → String
  /-- Embeds `os.listdir(path)`. -/
  listdir : String → List String
  /-- the local filesystem used by `from_disk` during disk exploration. -/
  fs : FS
  /-- truthiness of `re.compile(pattern).search(name)`. -/
  regexSearch : String → String → Bool

/-! ### `explore_children` -/

/-- The `while more:` loop of `Entity.explore_children`, for a gateway
response function `gw : page ↦ Page`.  Requests the current page, extends
the accumulated results, sets `more` from the page's `next` marker, and
increments `page`.  Returns the concatenated result records and the
sequence of requested page numbers; `none` models a loop that exhausts
`fuel` (a service that never reports a last page). -/
def listLoop (gw : Nat → Page) : Nat → Nat → Option (List EntityDict × List Nat)
  | 0, _ => none
  | fuel + 1, page =>
    let pr := gw page
    match pr.next with
    | none => some (pr.results, [page])
    | some _ =>
      match listLoop gw fuel (page + 1) with
      | none => none
      | some (rest, pages) => some (pr.results ++ rest, page :: pages)

/-- Embeds `Entity.explore_children`.  Checks the container kind, resets
`self.children = []` (the refresh of the cache), then either runs the
pagination loop (service-backed entities, pages requested starting at 1
with `ordering='name'`, each record converted via `from_dictionary`) or
lists the recorded disk location and converts each entry via `from_disk`.
The `child.parent = self` back-assignments of the source are not
represented (see the file header). -/
def exploreChildrenE (env : Env) (e : Entity) : Except EntityError Entity :=
  if e.entity_type ∉ Entity.SUBTREE_TYPES then
    .error (.invalidOperation "This method is only valid on folders.")
  else if e.from_service then
    if ¬ env.clientSet then .error (.entityError "This method requires a client set")
    else
      match listLoop (fun p => env.listFolderContent e.uuid p "name") env.pageFuel 1 with
      | none => .error .fuel
      | some (results, _pages) =>
        .ok (e.withChildren (results.map Entity.from_dictionary))
  else
    match (env.listdir ((e.disk_location).getD "")).mapM
        (fun c => from_disk env.fs (pyJoin ((e.disk_location).getD "") c)) with
    | .error err => .error err
    | .ok cs => .ok (e.withChildren cs)

/-- Runs `k` successive calls of `explore_children` on the same entity, each
call starting from the entity state the previous call left behind. -/
def iterExplore (env : Env) : Nat → Entity → Except EntityError Entity
  | 0, e => .ok e
  | k + 1, e =>
    match exploreChildrenE env e with
    | .error err => .error err
    | .ok e2 => iterExplore env k e2

/-! ### The shared work-list discipline

`explore_subtree`, `search_subtree` and `__process_subtree` all run the
same loop over a Python list used as a work list:

    while worklist:
        current = worklist.pop()          # pops the LAST element
        ... push items with worklist.insert(0, item)   # at the FRONT

`pyWorklist` embeds that loop verbatim (pop from the end, insert at the
front); `qWorklist` is the equivalent first-in-first-out queue on the
reversed buffer, used in proofs. -/

/-- Embeds `worklist.pop()`: remove and return the last element. -/
def stepPop {α : Type} (l : List α) : Option (α × List α) :=
  match l.getLast? with
  | none => none
  | some x => some (x, l.dropLast)

/-- Embeds `for c in cs: worklist.insert(0, c)`. -/
def pushFront {α : Type} (cs : List α) (buf : List α) : List α :=
  cs.foldl (fun b c => c :: b) buf

/-- The generic work-list loop: pop the last entity, obtain from it the
list of entities to push (`f`), insert them at the front, and record the
popped entity as visited.  Returns the visit order. -/
def pyWorklist (f : Entity → Except EntityError (List Entity)) :
    Nat → List Entity → Except EntityError (List Entity)
  | 0, buf =>
    match stepPop buf with
    | none => .ok []
    | some _ => .error .fuel
  | fuel + 1, buf =>
    match stepPop buf with
    | none => .ok []
    | some (current, rest) =>
      match f current with
      | .error err => .error err
      | .ok cs =>
        match pyWorklist f fuel (pushFront cs rest) with
        | .error err => .error err
        | .ok vs => .ok (current :: vs)

/-- The same loop on the reversed buffer: a first-in-first-out queue
(pop the head, append pushes at the end). -/
def qWorklist (f : Entity → Except EntityError (List Entity)) :
    Nat → List Entity → Except EntityError (List Entity)
  | _, [] => .ok []
  | 0, _ :: _ => .error .fuel
  | fuel + 1, e :: rest =>
    match f e with
    | .error err => .error err
    | .ok cs =>
      match qWorklist f fuel (rest ++ cs) with
      | .error err => .error err
      | .ok vs => .ok (e :: vs)

/-- The push function of `__process_subtree`: all current children. -/
def childrenF : Entity → Except EntityError (List Entity) :=
  fun e => .ok e.children

/-- Embeds `Entity.__process_subtree`: the visit order in which the named private
operation is invoked on the nodes of the already-materialized subtree.
In each iteration the source pushes the popped entity's children and then
invokes the operation on the popped entity, so the visit order is exactly
the pop order.  (`__load` and `__write` mutate only `uuid` respectively
`_disk_location` of the visited node, never `children`, so the traversal
structure is unaffected by the operation.) -/
def processVisits (fuel : Nat) (buf : List Entity) :
    Except EntityError (List Entity) :=
  pyWorklist childrenF fuel buf

/-- The push function of `explore_subtree`'s loop: call `explore_children`
on the popped folder, then push those of its fresh children whose
`entity_type == 'folder'`. -/
def explorePushF (env : Env) (e : Entity) : Except EntityError (List Entity) :=
  match exploreChildrenE env e with
  | .error err => .error err
  | .ok e2 => .ok (e2.children.filter (fun c => c.entity_type == "folder"))

/-- Embeds `Entity.explore_subtree`, as the order in which pending containers are
explored (= the order of their `explore_children` gateway calls).  A leaf
kind does nothing. -/
def exploreSubtreeOrder (env : Env) (fuel : Nat) (e : Entity) :
    Except EntityError (List Entity) :=
  if e.entity_type ∈ Entity.SUBTREE_TYPES then
    pyWorklist (explorePushF env) fuel [e]
  else .ok []

/-- The tree produced by `Entity.explore_subtree`: every explored folder's
`children` are replaced by the gateway listing, recursively for children
with `entity_type == 'folder'`.  The source computes this with the
work-list loop of `exploreSubtreeOrder`; since the gateway is a pure
function, the order in which folders are explored does not change the
resulting tree, so the tree is materialized here by recursion on depth
(`fuel`). -/
def materializeF (env : Env) : Nat → Entity → Except EntityError Entity
  | 0, _ => .error .fuel
  | fuel + 1, e =>
    match exploreChildrenE env e with
    | .error err => .error err
    | .ok e2 =>
      match e2.children.mapM (fun c =>
          if c.entity_type == "folder" then materializeF env fuel c
          else .ok c) with
      | .error err => .error err
      | .ok cs => .ok (e2.withChildren cs)

/-- Embeds `Entity.explore_subtree` as a tree transformer (no-op on a leaf kind). -/
def exploreSubtreeTree (env : Env) (fuel : Nat) (e : Entity) :
    Except EntityError Entity :=
  if e.entity_type ∈ Entity.SUBTREE_TYPES then materializeF env fuel e
  else .ok e

/-! ### `search_subtree` -/

/-- The `regex` argument of `search_subtree` as a dynamically typed Python
value: a string, or anything that is not a string. -/
inductive PyVal where
  | str (s : String)
  | nonStr
deriving DecidableEq, Repr

/-- Embeds `Entity.search_subtree`, with the source's exact check order: container
kind first; then, when the `children` cache is empty, the lazy
`explore_subtree` (which performs gateway calls); only then the
pattern-is-a-string check; finally the collecting walk.  The second
component is the list of folders explored by the lazy materialization — one
entry per `explore_children` gateway exchange — so the network traffic the
call performed is visible alongside its result.  The collecting walk is the
work-list loop with every child pushed and the matching visits collected,
which is the filter of the visit order by the regex test. -/
def search_subtree (env : Env) (fuel : Nat) (e : Entity) (regex : PyVal) :
    Except EntityError (List Entity) × List Entity :=
  if e.entity_type ∉ Entity.SUBTREE_TYPES then
    (.error (.invalidOperation "You can only seach in folders"), [])
  else
    let explored : Except EntityError (Entity × List Entity) :=
      if e.children.isEmpty then
        match exploreSubtreeOrder env fuel e, exploreSubtreeTree env fuel e with
        | .error err, _ => .error err
        | _, .error err => .error err
        | .ok visited, .ok e2 => .ok (e2, visited)
      else .ok (e, [])
    match explored with
    | .error err => (.error err, [])
    | .ok (e2, visited) =>
      match regex with
      | .nonStr =>
        (.error (.argument "The expression needs to be given as a string"), visited)
      | .str pat =>
        match pyWorklist childrenF fuel [e2] with
        | .error err => (.error err, visited)
        | .ok nodes =>
          (.ok (nodes.filter (fun x => env.regexSearch pat x.name)), visited)

/-! ### `upload` and `download`'s file writing -/

/-- Gateway and filesystem calls whose presence and payload the theorems
track.  The destination-resolution query and the collision-count query of
`upload` are modelled by the `Env` response functions; the records below
cover the state-changing calls the claims are about. -/
inductive CallRec where
  | createFolder (name : String) (parent : Option String)
  | createFile (name : String) (parent : Option String) (contentType : String)
  | uploadContent (fileId : Option String) (source : Option String)
  | getSignedUrl (uuid : Option String)
  | downloadSignedUrl (url : String)
  | openWrite (path : String)
deriving DecidableEq, Repr

/-- The destination lookup of `upload`: a `path` query when a destination
path is given, else a `uuid` query. -/
def resolveDestination (env : Env) (dpath duuid : Option String) :
    Except EntityError EntityDict :=
  match dpath with
  | some p => env.queryByPath p
  | none => env.queryByUuid (duuid.getD "")

/-- Embeds `Entity.__load` for one node (dispatching to `__load_directory` or
`__load_file`).  `parentUuid` is the value of
`self.parent.uuid if self.parent and self.parent.uuid else destination`:
the caller passes the parent's (freshly assigned) uuid when the node's
parent is part of the walk, and `none` for a parentless root. -/
def loadOne (env : Env) (destination : Option String)
    (parentUuid : Option String) (e : Entity) :
    Except EntityError (Entity × List CallRec) :=
  if e.from_service then
    .error (.entityError
      "This entity was constructed from the service, it cannot be reuploded")
  else
    let effParent : Option String :=
      match parentUuid with
      | some u => some u
      | none => destination
    if e.entity_type == "folder" then
      let newId := env.newFolderUuid e.name effParent
      .ok (e.withUuid (some newId), [.createFolder e.name effParent])
    else
      let ctype :=
        (guessType ((e.disk_location).getD "")).getD "application/octet-stream"
      let newId := env.newFileUuid e.name effParent ctype
      .ok (e.withUuid (some newId),
        [.createFile e.name effParent ctype,
         .uploadContent (some newId) e.disk_location])

/-- Embeds `__process_subtree('__load', destination)`: the work-list walk calling
`__load` on every node.  The buffer pairs each pending entity with its
parent's uuid: the source pushes children (by reference) before loading the
popped parent, but a child's `parent.uuid` is only read when the child
itself is popped — after its parent's load assigned the fresh uuid — so
pairing the children with the parent's post-load uuid is equivalent.
Returns the loaded nodes in visit order and the gateway calls in the order
they are issued. -/
def loadSubtree (env : Env) (destination : Option String) :
    Nat → List (Option String × Entity) →
    Except EntityError (List Entity) × List CallRec
  | 0, buf =>
    match stepPop buf with
    | none => (.ok [], [])
    | some _ => (.error .fuel, [])
  | fuel + 1, buf =>
    match stepPop buf with
    | none => (.ok [], [])
    | some ((pu, current), rest) =>
      match loadOne env destination pu current with
      | .error err => (.error err, [])
      | .ok (cur2, ctrace) =>
        let buf2 := pushFront (current.children.map (fun c => (cur2.uuid, c))) rest
        match loadSubtree env destination fuel buf2 with
        | (.error err, tr) => (.error err, ctrace ++ tr)
        | (.ok vs, tr) => (.ok (cur2 :: vs), ctrace ++ tr)

/-- Embeds `Entity.upload`, with the source's step order: client check, the
exactly-one-destination check, destination resolution, the
destination-must-be-a-container check, the collision guard (the
name-and-type-filtered children count), the lazy `explore_subtree` for an
unexplored container, and finally the `__load` walk.  Returns the loaded
nodes in walk order (the head is the uploaded entity itself, with its newly
assigned uuid) and the state-changing gateway calls issued. -/
def upload (env : Env) (fuel : Nat) (e : Entity) (dpath duuid : Option String) :
    Except EntityError (List Entity) × List CallRec :=
  if ¬ env.clientSet then
    (.error (.entityError "This method requires a client set"), [])
  else
    match dpath, duuid with
    | none, none => (.error (.argument "Exactly one destination is required."), [])
    | some _, some _ =>
      (.error (.argument "Exactly one destination is required."), [])
    | _, _ =>
      match resolveDestination env dpath duuid with
      | .error err => (.error err, [])
      | .ok parent =>
        if parent.entity_type ∉ Entity.SUBTREE_TYPES then
          (.error (.argument "The destination must be a project or folder"), [])
        else if env.countOf parent.uuid e.entity_type e.name ≠ 0 then
          (.error (.uploadError
            "An entity with the same name and type already exists at the destination"),
           [])
        else
          match (if e.entity_type ∈ Entity.SUBTREE_TYPES ∧ e.children.isEmpty then
                   exploreSubtreeTree env fuel e
                 else .ok e) with
          | .error err => (.error err, [])
          | .ok e2 => loadSubtree env parent.uuid fuel [(none, e2)]

/-- Embeds `Entity.__write_file`: refuse to overwrite an existing file; otherwise
obtain a signed URL, download through it and write the stream to the target
path.  The source writes the response in 1024-byte chunks; the chunking is
not observable in the final snapshot, which holds the whole stream.
Returns (error?, resulting filesystem, calls issued). -/
def write_file (env : Env) (fs : FS) (e : Entity) :
    Option EntityError × FS × List CallRec :=
  let loc := (e.disk_location).getD ""
  if pyIsFile fs loc then
    (some (.osError "The target file already exists"), fs, [])
  else
    let url := env.signedUrlOf e.uuid
    let content := env.contentOf url
    (none, fsWrite fs loc content,
     [.getSignedUrl e.uuid, .downloadSignedUrl url, .openWrite loc])

/-- The content type `__load_file` passes to `create_file`:
`guess_type(self._disk_location)[0] or 'application/octet-stream'`. -/
def contentTypeOf (e : Entity) : String :=
  (guessType ((e.disk_location).getD "")).getD "application/octet-stream"

/-- The uuid the gateway assigns to the file created by `__load_file`. -/
def fileUuidOf (env : Env) (e : Entity) (parentUuid : Option String) : String :=
  env.newFileUuid e.name parentUuid (contentTypeOf e)

/-! ### Tree measures -/

/-- Total number of nodes in a forest of entity trees. -/
def sizeForest : List Entity → Nat
  | [] => 0
  | .mk _ _ _ _ _ _ cs _ _ :: ts => 1 + sizeForest cs + sizeForest ts

/-- All nodes of a forest, root of the first tree first. -/
def nodesForest : List Entity → List Entity
  | [] => []
  | .mk t u n d c m cs l s :: ts =>
    Entity.mk t u n d c m cs l s :: (nodesForest cs ++ nodesForest ts)

/-- Total number of nodes of one tree. -/
def sizeTree (e : Entity) : Nat := sizeForest [e]

/-- All nodes of one tree (the node itself and every descendant). -/
def nodesTree (e : Entity) : List Entity := nodesForest [e]

/-! ### Fixtures for the pagination, traversal, download and collision scenarios -/

/-- A concrete two-page gateway exercising `explore_children_paginates_exhaustively`. -/
def dictA : EntityDict := ⟨"file", some "a-uuid", "a.txt", none, none, none⟩

def dictB : EntityDict := ⟨"folder", some "b-uuid", "b", none, none, none⟩

def envC1 : Env where
  clientSet := true
  listFolderContent := fun _ p _ =>
    if p = 1 then ⟨[dictA], some "marker"⟩ else ⟨[dictB], none⟩
  pageFuel := 2
  countOf := fun _ _ _ => 0
  queryByPath := fun _ => .error (.notFound "")
  queryByUuid := fun _ => .error (.notFound "")
  newFolderUuid := fun _ _ => ""
  newFileUuid := fun _ _ _ => ""
  signedUrlOf := fun _ => ""
  contentOf := fun _ => ""
  listdir := fun _ => []
  fs := fun _ => none
  regexSearch := fun _ _ => false

def entC1 : Entity := .mk "folder" (some "root-uuid") "root" none none none [] none true

/-- A concrete tree (root with two children, the first child having one
child of its own) exercising `process_subtree_visits_once_parent_first`. -/
def leafD : Entity := .mk "file" none "d.txt" none none none [] (some "/r/b/d.txt") false

def folderB : Entity := .mk "folder" none "b" none none none [leafD] (some "/r/b") false

def leafC : Entity := .mk "file" none "c.txt" none none none [] (some "/r/c.txt") false

def rootR : Entity := .mk "folder" none "r" none none none [folderB, leafC] (some "/r") false

def envC2 : Env where
  clientSet := true
  listFolderContent := fun _ p _ =>
    if p = 1 then ⟨[dictA], some "marker"⟩ else ⟨[dictB], none⟩
  pageFuel := 3
  countOf := fun _ _ _ => 0
  queryByPath := fun _ => .error (.notFound "")
  queryByUuid := fun _ => .error (.notFound "")
  newFolderUuid := fun _ _ => ""
  newFileUuid := fun _ _ _ => ""
  signedUrlOf := fun _ => ""
  contentOf := fun _ => ""
  listdir := fun _ => []
  fs := fun _ => none
  regexSearch := fun _ _ => false

def entC2 : Entity := .mk "project" (some "p-uuid") "proj" none none none [] none true

def envC6 : Env where
  clientSet := true
  listFolderContent := fun _ _ _ => ⟨[], none⟩
  pageFuel := 1
  countOf := fun _ _ _ => 0
  queryByPath := fun _ => .error (.notFound "")
  queryByUuid := fun _ => .error (.notFound "")
  newFolderUuid := fun _ _ => ""
  newFileUuid := fun _ _ _ => ""
  signedUrlOf := fun _ => "https://signed.example/u"
  contentOf := fun _ => "fresh-bytes"
  listdir := fun _ => []
  fs := fun _ => none
  regexSearch := fun _ _ => false

def fsC6 : FS := fun p => if p = "/dl/a.txt" then some (.file "old-bytes") else none

def entC6 : Entity :=
  .mk "file" (some "file-uuid") "a.txt" none none none [] (some "/dl/a.txt") true

def destDict : EntityDict := ⟨"folder", some "dest-uuid", "dest", none, none, none⟩

def envC5 : Env where
  clientSet := true
  listFolderContent := fun _ _ _ => ⟨[], none⟩
  pageFuel := 1
  countOf := fun _ _ _ => 1
  queryByPath := fun p => if p = "/dest" then .ok destDict else .error (.notFound "")
  queryByUuid := fun _ => .error (.notFound "")
  newFolderUuid := fun _ _ => "new-folder"
  newFileUuid := fun _ _ _ => "new-file"
  signedUrlOf := fun _ => ""
  contentOf := fun _ => ""
  listdir := fun _ => []
  fs := fun _ => none
  regexSearch := fun _ _ => false

def entC5 : Entity :=
  .mk "file" none "a.txt" none none none [] (some "/local/a.txt") false

/-! ### Fixtures for the upload scenarios -/

/-- Destination record of the first upload destination. -/
def dictD1 : EntityDict := ⟨"folder", some "D1", "d1", none, none, none⟩

/-- Destination record of the second upload destination. -/
def dictD2 : EntityDict := ⟨"folder", some "D2", "d2", none, none, none⟩

/-- Gateway state before the first upload: both destinations empty. -/
def envC4a : Env where
  clientSet := true
  listFolderContent := fun _ _ _ => ⟨[], none⟩
  pageFuel := 1
  countOf := fun _ _ _ => 0
  queryByPath := fun p =>
    if p = "/dest1" then .ok dictD1
    else if p = "/dest2" then .ok dictD2
    else .error (.notFound "")
  queryByUuid := fun _ => .error (.notFound "")
  newFolderUuid := fun _ _ => "dir-1"
  newFileUuid := fun _ _ _ => "fid-1"
  signedUrlOf := fun _ => ""
  contentOf := fun _ => ""
  listdir := fun _ => []
  fs := fun _ => none
  regexSearch := fun _ _ => false

/-- Gateway state after the first upload: the file now exists under `D1`
(its filtered count there is 1), destination `D2` is still empty, and the
service would hand out a fresh uuid for a new file. -/
def envC4b : Env where
  clientSet := true
  listFolderContent := fun _ _ _ => ⟨[], none⟩
  pageFuel := 1
  countOf := fun parentUuid _ _ => if parentUuid = some "D1" then 1 else 0
  queryByPath := fun p =>
    if p = "/dest1" then .ok dictD1
    else if p = "/dest2" then .ok dictD2
    else .error (.notFound "")
  queryByUuid := fun _ => .error (.notFound "")
  newFolderUuid := fun _ _ => "dir-2"
  newFileUuid := fun _ _ _ => "fid-2"
  signedUrlOf := fun _ => ""
  contentOf := fun _ => ""
  listdir := fun _ => []
  fs := fun _ => none
  regexSearch := fun _ _ => false

/-- A disk-backed file entity about to be uploaded. -/
def entC4 : Entity :=
  .mk "file" none "f.txt" none none none [] (some "/local/f.txt") false

/-- A disk-backed notebook file entity. -/
def entC7 : Entity :=
  .mk "file" none "nb.ipynb" none none none [] (some "/local/nb.ipynb") false

/-! ### Fixtures for the search and subtree-exploration scenarios -/

/-- A remote-backed folder whose gateway listing is empty. -/
def entS8 : Entity := .mk "folder" (some "S") "s" none none none [] none true

/-- Environment for the lazy-search scenario: a gateway whose listings are
all empty. -/
def envS8 : Env where
  clientSet := true
  listFolderContent := fun _ _ _ => ⟨[], none⟩
  pageFuel := 1
  countOf := fun _ _ _ => 0
  queryByPath := fun _ => .error (.notFound "")
  queryByUuid := fun _ => .error (.notFound "")
  newFolderUuid := fun _ _ => ""
  newFileUuid := fun _ _ _ => ""
  signedUrlOf := fun _ => ""
  contentOf := fun _ => ""
  listdir := fun _ => []
  fs := fun _ => none
  regexSearch := fun _ _ => false

/-- A remote-backed folder with an already-populated children cache. -/
def entS8b : Entity :=
  .mk "folder" (some "S2") "s2" none none none
    [.mk "file" (some "S2F") "f.txt" none none none [] none true] none true

/-- Folder records for the exploration-order tree A → {B → {D}, C}. -/
def dictFB : EntityDict := ⟨"folder", some "B", "B", none, none, none⟩

def dictFC : EntityDict := ⟨"folder", some "C", "C", none, none, none⟩

def dictFD : EntityDict := ⟨"folder", some "D", "D", none, none, none⟩

/-- Gateway serving the tree A → {B → {D}, C}: A's listing is `[B, C]`,
B's listing is `[D]`, every other listing is empty; all in one page. -/
def envC9 : Env where
  clientSet := true
  listFolderContent := fun u _ _ =>
    if u = some "A" then ⟨[dictFB, dictFC], none⟩
    else if u = some "B" then ⟨[dictFD], none⟩
    else ⟨[], none⟩
  pageFuel := 2
  countOf := fun _ _ _ => 0
  queryByPath := fun _ => .error (.notFound "")
  queryByUuid := fun _ => .error (.notFound "")
  newFolderUuid := fun _ _ => ""
  newFileUuid := fun _ _ _ => ""
  signedUrlOf := fun _ => ""
  contentOf := fun _ => ""
  listdir := fun _ => []
  fs := fun _ => none
  regexSearch := fun _ _ => false

/-- The root folder A of the exploration-order tree. -/
def rootA : Entity := .mk "folder" (some "A") "A" none none none [] none true

/-! ## Theorems -/

namespace Entity

@[simp] theorem entity_type_withChildren (e : Entity) (cs : List Entity) :
    (e.withChildren cs).entity_type = e.entity_type := by
  cases e; rfl

@[simp] theorem uuid_withChildren (e : Entity) (cs : List Entity) :
    (e.withChildren cs).uuid = e.uuid := by
  cases e; rfl

@[simp] theorem name_withChildren (e : Entity) (cs : List Entity) :
    (e.withChildren cs).name = e.name := by
  cases e; rfl

@[simp] theorem disk_location_withChildren (e : Entity) (cs : List Entity) :
    (e.withChildren cs).disk_location = e.disk_location := by
  cases e; rfl

@[simp] theorem from_service_withChildren (e : Entity) (cs : List Entity) :
    (e.withChildren cs).from_service = e.from_service := by
  cases e; rfl

@[simp] theorem children_withChildren (e : Entity) (cs : List Entity) :
    (e.withChildren cs).children = cs := by
  cases e; rfl

@[simp] theorem withChildren_withChildren (e : Entity) (cs ds : List Entity) :
    (e.withChildren cs).withChildren ds = e.withChildren ds := by
  cases e; rfl

end Entity

/-- The pagination loop requests consecutive pages `a, a+1, ..., a+n`, each
exactly once, when pages `a..a+n-1` carry a continuation marker and page
`a+n` does not, and concatenates the pages' results in page order. -/
theorem listLoop_spec (gw : Nat → Page) (n : Nat) :
    ∀ a fuel, n + 1 ≤ fuel →
    (∀ p, a ≤ p → p < a + n → (gw p).next ≠ none) →
    (gw (a + n)).next = none →
    listLoop gw fuel a =
      some (((List.range' a (n + 1)).flatMap fun p => (gw p).results),
            List.range' a (n + 1)) := by
  induction n with
  | zero =>
    intro a fuel hfuel _ hlast
    match fuel, hfuel with
    | fuel + 1, _ =>
      simp only [Nat.add_zero] at hlast
      simp [listLoop, hlast]
  | succ n ih =>
    intro a fuel hfuel hmid hlast
    match fuel, hfuel with
    | fuel + 1, hfuel =>
      have hne : (gw a).next ≠ none := hmid a le_rfl (by omega)
      have harith : a + 1 + n = a + (n + 1) := by omega
      have hrec := ih (a + 1) fuel (by omega)
        (fun p hp1 hp2 => hmid p (by omega) (by omega))
        (by rw [harith]; exact hlast)
      cases hnext : (gw a).next with
      | none => exact absurd hnext hne
      | some marker =>
        simp only [listLoop, hnext, hrec]
        simp [List.range'_succ, List.append_assoc]

/-- C1.  For a remote-backed container entity, when the gateway serves `N`
pages (requested from page 1, ordered by name) of which every page before
the last carries a continuation marker and page `N` does not,
`explore_children` sets `children` to exactly the concatenation of the `N`
pages' result records, converted via `from_dictionary`, in page order; the
loop requests exactly the pages `1..N`, each once, in order, stopping at
the first page whose marker is `None`. -/
theorem explore_children_paginates_exhaustively (env : Env) (e : Entity) (N : Nat)
    (htype : e.entity_type ∈ Entity.SUBTREE_TYPES)
    (hsvc : e.from_service = true)
    (hclient : env.clientSet = true)
    (hN : 1 ≤ N) (hfuel : N ≤ env.pageFuel)
    (hmid : ∀ p, 1 ≤ p → p < N →
      (env.listFolderContent e.uuid p "name").next ≠ none)
    (hlast : (env.listFolderContent e.uuid N "name").next = none) :
    exploreChildrenE env e =
      .ok (e.withChildren (((List.range' 1 N).flatMap
        fun p => (env.listFolderContent e.uuid p "name").results).map
          Entity.from_dictionary))
    ∧ listLoop (fun p => env.listFolderContent e.uuid p "name") env.pageFuel 1 =
        some (((List.range' 1 N).flatMap
          fun p => (env.listFolderContent e.uuid p "name").results),
          List.range' 1 N) := by
  obtain ⟨n, rfl⟩ : ∃ n, N = n + 1 := ⟨N - 1, by omega⟩
  have hl := listLoop_spec (fun p => env.listFolderContent e.uuid p "name")
    n 1 env.pageFuel (by omega)
    (fun p hp1 hp2 => hmid p hp1 (by omega))
    (by have h1n : 1 + n = n + 1 := by omega
        simp only [h1n]; exact hlast)
  refine ⟨?_, hl⟩
  simp [exploreChildrenE, htype, hsvc, hclient, hl]

theorem explore_children_paginates_exhaustively_witness :
    exploreChildrenE envC1 entC1 =
      .ok (entC1.withChildren (((List.range' 1 2).flatMap
        fun p => (envC1.listFolderContent entC1.uuid p "name").results).map
          Entity.from_dictionary))
    ∧ listLoop (fun p => envC1.listFolderContent entC1.uuid p "name")
        envC1.pageFuel 1 =
        some (((List.range' 1 2).flatMap
          fun p => (envC1.listFolderContent entC1.uuid p "name").results),
          List.range' 1 2) :=
  explore_children_paginates_exhaustively envC1 entC1 2 (by decide) rfl rfl
    (by decide) (by decide)
    (by intro p hp1 hp2
        have hp : p = 1 := by omega
        subst hp
        decide)
    (by decide)

/-! ### Work-list lemmas -/

theorem pushFront_eq_reverse_append {α : Type} (cs : List α) :
    ∀ buf : List α, pushFront cs buf = cs.reverse ++ buf := by
  induction cs with
  | nil => intro buf; simp [pushFront]
  | cons c cs ih =>
    intro buf
    have step : pushFront (c :: cs) buf = pushFront cs (c :: buf) := rfl
    rw [step, ih (c :: buf)]
    simp

/-- Popping from the end and pushing at the front of the buffer is the
first-in-first-out queue on the reversed buffer. -/
theorem pyWorklist_eq_qWorklist (f : Entity → Except EntityError (List Entity)) :
    ∀ fuel buf, pyWorklist f fuel buf = qWorklist f fuel buf.reverse := by
  intro fuel
  induction fuel with
  | zero =>
    intro buf
    rcases List.eq_nil_or_concat buf with rfl | ⟨l, a, rfl⟩
    · rfl
    · simp only [List.concat_eq_append, pyWorklist, stepPop,
        List.getLast?_concat, List.dropLast_concat]
      have hrev : (l ++ [a]).reverse = a :: l.reverse := by simp
      rw [hrev]
      rfl
  | succ fuel ih =>
    intro buf
    rcases List.eq_nil_or_concat buf with rfl | ⟨l, a, rfl⟩
    · rfl
    · simp only [List.concat_eq_append, pyWorklist, stepPop,
        List.getLast?_concat, List.dropLast_concat]
      have hrev : (l ++ [a]).reverse = a :: l.reverse := by simp
      rw [hrev]
      simp only [qWorklist]
      cases f a with
      | error err => rfl
      | ok cs =>
        dsimp only
        rw [ih (pushFront cs l), pushFront_eq_reverse_append]
        have : (cs.reverse ++ l).reverse = l.reverse ++ cs := by simp
        rw [this]

/-- Whatever is pending on the queue appears in the output, in queue order,
as the next visits: the visit list starts with the current queue. -/
theorem qWorklist_starts_with_queue (f : Entity → Except EntityError (List Entity)) :
    ∀ fuel q vs, qWorklist f fuel q = .ok vs → ∃ tail, vs = q ++ tail := by
  intro fuel
  induction fuel with
  | zero =>
    intro q vs h
    cases q with
    | nil =>
      refine ⟨[], ?_⟩
      simpa [qWorklist] using h.symm
    | cons e rest => simp [qWorklist] at h
  | succ fuel ih =>
    intro q vs h
    cases q with
    | nil =>
      refine ⟨[], ?_⟩
      simpa [qWorklist] using h.symm
    | cons e rest =>
      simp only [qWorklist] at h
      cases hf : f e with
      | error err => rw [hf] at h; cases h
      | ok cs =>
        rw [hf] at h
        dsimp only at h
        cases hrec : qWorklist f fuel (rest ++ cs) with
        | error err => rw [hrec] at h; cases h
        | ok vs1 =>
          rw [hrec] at h
          dsimp only at h
          cases h
          obtain ⟨t, ht⟩ := ih (rest ++ cs) vs1 hrec
          exact ⟨cs ++ t, by simp [ht, List.append_assoc]⟩

theorem sizeForest_cons (e : Entity) (ts : List Entity) :
    sizeForest (e :: ts) = 1 + sizeForest e.children + sizeForest ts := by
  cases e with
  | mk t u n d c m cs l s => simp [sizeForest, Entity.children]

theorem nodesForest_cons (e : Entity) (ts : List Entity) :
    nodesForest (e :: ts) = e :: (nodesForest e.children ++ nodesForest ts) := by
  cases e with
  | mk t u n d c m cs l s => simp [nodesForest, Entity.children]

theorem sizeForest_append (a b : List Entity) :
    sizeForest (a ++ b) = sizeForest a + sizeForest b := by
  induction a with
  | nil => simp [sizeForest]
  | cons e ts ih =>
    rw [List.cons_append, sizeForest_cons, sizeForest_cons, ih]
    omega

theorem nodesForest_append (a b : List Entity) :
    nodesForest (a ++ b) = nodesForest a ++ nodesForest b := by
  induction a with
  | nil => simp [nodesForest]
  | cons e ts ih =>
    rw [List.cons_append, nodesForest_cons, nodesForest_cons, ih]
    simp [List.append_assoc]

/-- With enough fuel the `__process_subtree` queue loop terminates, and its
visit list is a permutation of the nodes of the pending forest: every node
is visited exactly once. -/
theorem qWorklist_children_perm :
    ∀ fuel q, sizeForest q ≤ fuel →
    ∃ vs, qWorklist childrenF fuel q = .ok vs ∧ vs.Perm (nodesForest q) := by
  intro fuel
  induction fuel with
  | zero =>
    intro q hq
    cases q with
    | nil => exact ⟨[], rfl, by simp [nodesForest]⟩
    | cons e rest =>
      rw [sizeForest_cons] at hq
      omega
  | succ fuel ih =>
    intro q hq
    cases q with
    | nil => exact ⟨[], rfl, by simp [nodesForest]⟩
    | cons e rest =>
      rw [sizeForest_cons] at hq
      have hsz : sizeForest (rest ++ e.children) ≤ fuel := by
        rw [sizeForest_append]
        omega
      obtain ⟨vs1, h1, hp⟩ := ih (rest ++ e.children) hsz
      refine ⟨e :: vs1, ?_, ?_⟩
      · simp only [qWorklist, childrenF, h1]
      · rw [nodesForest_cons]
        refine (hp.trans ?_).cons e
        rw [nodesForest_append]
        exact List.perm_append_comm

/-- In the `__process_subtree` visit order, every child of a visited node
is itself visited strictly later. -/
theorem qWorklist_children_visited_later :
    ∀ fuel q vs, qWorklist childrenF fuel q = .ok vs →
    ∀ i (hi : i < vs.length), ∀ c, c ∈ (vs.get ⟨i, hi⟩).children →
    c ∈ vs.drop (i + 1) := by
  intro fuel
  induction fuel with
  | zero =>
    intro q vs h i hi c hc
    cases q with
    | nil =>
      have hvs : vs = [] := by simpa [qWorklist] using h.symm
      subst hvs
      simp at hi
    | cons e rest => simp [qWorklist] at h
  | succ fuel ih =>
    intro q vs h i hi c hc
    cases q with
    | nil =>
      have hvs : vs = [] := by simpa [qWorklist] using h.symm
      subst hvs
      simp at hi
    | cons e rest =>
      simp only [qWorklist, childrenF] at h
      cases hrec : qWorklist childrenF fuel (rest ++ e.children) with
      | error err => rw [hrec] at h; cases h
      | ok vs1 =>
        rw [hrec] at h
        cases h
        cases i with
        | zero =>
          obtain ⟨t, ht⟩ := qWorklist_starts_with_queue childrenF fuel
            (rest ++ e.children) vs1 hrec
          have : c ∈ rest ++ e.children := List.mem_append_right rest (by simpa using hc)
          rw [List.drop_succ_cons, List.drop_zero, ht]
          exact List.mem_append_left t this
        | succ i =>
          have hi1 : i < vs1.length := by simpa using hi
          have hget : ((e :: vs1).get ⟨i + 1, hi⟩) = vs1.get ⟨i, hi1⟩ := by simp
          rw [hget] at hc
          have := ih (rest ++ e.children) vs1 hrec i hi1 c hc
          simpa [List.drop_succ_cons] using this

/-- C3.  On every finite already-materialized subtree, the tree-walk helper
`__process_subtree` (shared by `upload` and `download`) invokes the named
private operation on every node of the subtree exactly once (the visit list
is a permutation of the subtree's nodes), and invokes it on a node strictly
before invoking it on any of that node's children. -/
theorem process_subtree_visits_once_parent_first (e : Entity) (fuel : Nat)
    (h : sizeTree e ≤ fuel) :
    ∃ vs, processVisits fuel [e] = .ok vs ∧ vs.Perm (nodesTree e) ∧
      ∀ i (hi : i < vs.length), ∀ c, c ∈ (vs.get ⟨i, hi⟩).children →
        c ∈ vs.drop (i + 1) := by
  have hq : sizeForest [e] ≤ fuel := h
  obtain ⟨vs, hvs, hperm⟩ := qWorklist_children_perm fuel [e] hq
  refine ⟨vs, ?_, hperm, ?_⟩
  · rw [processVisits, pyWorklist_eq_qWorklist]
    simpa using hvs
  · exact qWorklist_children_visited_later fuel [e] vs hvs

theorem process_subtree_visits_once_parent_first_witness :
    ∃ vs, processVisits 4 [rootR] = .ok vs ∧ vs.Perm (nodesTree rootR) ∧
      ∀ i (hi : i < vs.length), ∀ c, c ∈ (vs.get ⟨i, hi⟩).children →
        c ∈ vs.drop (i + 1) :=
  process_subtree_visits_once_parent_first rootR 4
    (by simp [rootR, folderB, leafC, leafD, sizeTree, sizeForest])

/-! ### Idempotence of `explore_children` -/

/-- A successful `explore_children` reaches a fixed point: the call reads
only `entity_type`, `_from_service`, `uuid` and `_disk_location`, none of
which it changes, and it resets `children` before repopulating, so running
it again from the state it produced gives that same state back. -/
theorem exploreChildrenE_stable (env : Env) (e e2 : Entity)
    (h : exploreChildrenE env e = .ok e2) :
    exploreChildrenE env e2 = .ok e2 := by
  by_cases ht : e.entity_type ∈ Entity.SUBTREE_TYPES
  · cases hs : e.from_service with
    | true =>
      cases hc : env.clientSet with
      | false => rw [exploreChildrenE] at h; simp [ht, hs, hc] at h
      | true =>
        rw [exploreChildrenE, if_neg (not_not_intro ht), hs, if_pos rfl,
          hc] at h
        simp only [not_true_eq_false, if_false] at h
        cases hl : listLoop (fun p => env.listFolderContent e.uuid p "name")
            env.pageFuel 1 with
        | none => rw [hl] at h; cases h
        | some pr =>
          obtain ⟨results, pages⟩ := pr
          rw [hl] at h
          dsimp only at h
          cases h
          rw [exploreChildrenE,
            if_neg (not_not_intro (by simpa using ht)),
            Entity.from_service_withChildren, hs, if_pos rfl, hc]
          simp only [not_true_eq_false, if_false, Entity.uuid_withChildren,
            hl, Entity.withChildren_withChildren]
    | false =>
      rw [exploreChildrenE, if_neg (not_not_intro ht), hs] at h
      simp only [Bool.false_eq_true, if_false] at h
      cases hm : (env.listdir ((e.disk_location).getD "")).mapM
          (fun c => from_disk env.fs (pyJoin ((e.disk_location).getD "") c)) with
      | error err => rw [hm] at h; cases h
      | ok cs =>
        rw [hm] at h
        dsimp only at h
        cases h
        rw [exploreChildrenE,
          if_neg (not_not_intro (by simpa using ht)),
          Entity.from_service_withChildren, hs]
        simp only [Bool.false_eq_true, if_false,
          Entity.disk_location_withChildren, hm,
          Entity.withChildren_withChildren]
  · rw [exploreChildrenE] at h
    simp [ht] at h

/-- C2.  For every entity and environment, running `explore_children` any
number `k ≥ 1` of times in a row (against an unchanged gateway and disk) is
the same as running it once: the call clears the children cache before
repopulating it, so repeated discovery yields the same children sequence
and never appends duplicates. -/
theorem explore_children_idempotent (env : Env) :
    ∀ (k : Nat) (e : Entity), 1 ≤ k →
    iterExplore env k e = exploreChildrenE env e := by
  intro k
  induction k with
  | zero => intro e hk; omega
  | succ k ih =>
    intro e _
    cases hx : exploreChildrenE env e with
    | error err => simp [iterExplore, hx]
    | ok e2 =>
      simp only [iterExplore, hx]
      cases k with
      | zero => rfl
      | succ k2 =>
        rw [ih e2 (by omega), exploreChildrenE_stable env e e2 hx]

theorem explore_children_idempotent_witness :
    iterExplore envC2 3 entC2 = exploreChildrenE envC2 entC2 :=
  explore_children_idempotent envC2 3 entC2 (by decide)

/-! ### `from_disk` on the filesystem root -/

/-- C10.  Constructing an entity from the disk location `/` always raises
an `ArgumentError`: the trailing-separator normalization turns `/` into the
empty string, `os.path.exists('')` is `False` whatever the filesystem
holds (even when `/` itself exists as a directory), and the existence check
therefore fails. -/
theorem from_disk_root_always_rejected (fs : FS) :
    from_disk fs "/" =
      .error (.argument "The given path does not exist on the disk.") := by
  have h2 : pyIsAbs "/" = true := by decide
  have h3 : pyLastIsSlash "/" = true := by decide
  have h4 : pyDropLast "/" = "" := by decide
  have h5 : pyExists fs "" = false := by simp [pyExists]
  rw [from_disk]
  simp [h2, h3, h4, h5]

/-! ### Download: no overwrite of an existing file -/

/-- C6.  When the computed on-disk target of a file node already exists as
a regular file, `__write_file` fails with the OS-level "target file already
exists" condition before requesting a signed URL or opening the target
(the call list is empty), and the filesystem snapshot — in particular the
pre-existing file's content — is returned unchanged. -/
theorem write_file_never_overwrites (env : Env) (fs : FS) (e : Entity)
    (loc : String) (hloc : e.disk_location = some loc)
    (hex : pyIsFile fs loc = true) :
    write_file env fs e =
      (some (.osError "The target file already exists"), fs, []) := by
  rw [write_file]
  simp [hloc, hex]

theorem write_file_never_overwrites_witness :
    write_file envC6 fsC6 entC6 =
      (some (.osError "The target file already exists"), fsC6, []) :=
  write_file_never_overwrites envC6 fsC6 entC6 "/dl/a.txt" rfl (by decide)

/-! ### Upload: collision rejection -/

/-- C5.  Whenever the resolved destination container already holds an
entity with the uploading entity's name and kind (the name-and-type
filtered children count is non-zero), `upload` fails with the
upload-conflict error and issues no create-folder, create-file or
content-upload call (the call list is empty). -/
theorem upload_collision_rejected (env : Env) (fuel : Nat) (e : Entity)
    (dpath duuid : Option String) (parent : EntityDict)
    (hc : env.clientSet = true)
    (hone : dpath.isSome ≠ duuid.isSome)
    (hq : resolveDestination env dpath duuid = .ok parent)
    (hk : parent.entity_type ∈ Entity.SUBTREE_TYPES)
    (hcount : env.countOf parent.uuid e.entity_type e.name ≠ 0) :
    upload env fuel e dpath duuid =
      (.error (.uploadError
        "An entity with the same name and type already exists at the destination"),
       []) := by
  cases dpath with
  | none =>
    cases duuid with
    | none => simp at hone
    | some u =>
      rw [upload]
      simp [hc, hq, hk, hcount]
      all_goals intros
      all_goals simp_all
  | some p =>
    cases duuid with
    | none =>
      rw [upload]
      simp [hc, hq, hk, hcount]
      all_goals intros
      all_goals simp_all
    | some u => simp at hone

theorem entity_type_withUuid (e : Entity) (u : Option String) :
    (e.withUuid u).entity_type = e.entity_type := by
  cases e; rfl

theorem name_withUuid (e : Entity) (u : Option String) :
    (e.withUuid u).name = e.name := by
  cases e; rfl

theorem children_withUuid (e : Entity) (u : Option String) :
    (e.withUuid u).children = e.children := by
  cases e; rfl

theorem disk_location_withUuid (e : Entity) (u : Option String) :
    (e.withUuid u).disk_location = e.disk_location := by
  cases e; rfl

theorem from_service_withUuid (e : Entity) (u : Option String) :
    (e.withUuid u).from_service = e.from_service := by
  cases e; rfl

theorem uuid_withUuid (e : Entity) (u : Option String) :
    (e.withUuid u).uuid = u := by
  cases e; rfl

/-- The empty work list is a fixed point of the load walk. -/
theorem loadSubtree_nil (env : Env) (d : Option String) :
    ∀ m, loadSubtree env d m [] = (.ok [], []) := by
  intro m
  cases m <;> rfl

/-- A successful single-file upload in full: destination resolved by path,
no collision, the entity is a disk-backed file without children.  The
gateway receives exactly one `create_file` (with the guessed content type)
followed by one `upload_file_content`, and the entity comes back with the
fresh uuid assigned. -/
theorem upload_file_ok (env : Env) (fuel : Nat) (e : Entity) (p : String)
    (parent : EntityDict)
    (hfuel : 1 ≤ fuel)
    (hc : env.clientSet = true)
    (hq : env.queryByPath p = .ok parent)
    (hk : parent.entity_type ∈ Entity.SUBTREE_TYPES)
    (het : e.entity_type = "file")
    (hsvc : e.from_service = false)
    (hch : e.children = [])
    (hcount : env.countOf parent.uuid e.entity_type e.name = 0) :
    upload env fuel e (some p) none =
      (.ok [e.withUuid (some (fileUuidOf env e parent.uuid))],
       [.createFile e.name parent.uuid (contentTypeOf e),
        .uploadContent (some (fileUuidOf env e parent.uuid)) e.disk_location]) := by
  obtain ⟨m, rfl⟩ : ∃ m, fuel = m + 1 := ⟨fuel - 1, by omega⟩
  have hq' : resolveDestination env (some p) none = .ok parent := hq
  have hbeq : (("file" : String) == "folder") = false := by decide
  have hnotin : ("file" : String) ∉ Entity.SUBTREE_TYPES := by decide
  have hpop : stepPop [((none : Option String), e)] = some ((none, e), []) := rfl
  have hpf : pushFront ([] : List (Option String × Entity)) [] = [] := rfl
  rw [upload]
  rw [if_neg (by simp [hc])]
  rw [hq']
  dsimp only
  rw [if_neg (not_not_intro hk)]
  rw [if_neg (by simp [hcount])]
  rw [if_neg (by simp [het, hnotin])]
  dsimp only
  rw [loadSubtree, hpop]
  dsimp only
  rw [loadOne]
  rw [if_neg (by simp [hsvc])]
  dsimp only
  rw [if_neg (by simp [het, hbeq])]
  dsimp only
  rw [hch]
  simp only [List.map_nil]
  rw [hpf, loadSubtree_nil]
  rfl
  all_goals intros
  all_goals simp_all

theorem upload_collision_rejected_witness :
    upload envC5 3 entC5 (some "/dest") none =
      (.error (.uploadError
        "An entity with the same name and type already exists at the destination"),
       []) :=
  upload_collision_rejected envC5 3 entC5 (some "/dest") none destDict rfl
    (by decide) rfl (by decide) (by decide)

theorem contentTypeOf_withUuid (e : Entity) (u : Option String) :
    contentTypeOf (e.withUuid u) = contentTypeOf e := by
  rw [contentTypeOf, contentTypeOf, disk_location_withUuid]

/-- C4 (amended).  A successful upload of a disk-backed file entity
populates `uuid` (the remote id) with the gateway-assigned identifier, but
the object stays disk-backed: its `_from_service` flag is unchanged.
Because the re-upload guard of `__load` tests `_from_service` rather than
the presence of a `uuid`, re-invoking `upload` on that same entity toward a
conflict-free destination does NOT fail with an operation error — it
performs the create-file and content-upload calls again; only entities
constructed from the service are rejected by `__load` with the
"cannot be reuploded" operation error. -/
theorem upload_promotes_uuid_only_not_provenance
    (env env2 : Env) (fuel fuel2 : Nat) (e : Entity) (p p2 : String)
    (parent parent2 : EntityDict)
    (hfuel : 1 ≤ fuel) (hfuel2 : 1 ≤ fuel2)
    (hc : env.clientSet = true) (hc2 : env2.clientSet = true)
    (hq : env.queryByPath p = .ok parent)
    (hq2 : env2.queryByPath p2 = .ok parent2)
    (hk : parent.entity_type ∈ Entity.SUBTREE_TYPES)
    (hk2 : parent2.entity_type ∈ Entity.SUBTREE_TYPES)
    (het : e.entity_type = "file") (hsvc : e.from_service = false)
    (hch : e.children = [])
    (hcount : env.countOf parent.uuid e.entity_type e.name = 0)
    (hcount2 : env2.countOf parent2.uuid e.entity_type e.name = 0) :
    upload env fuel e (some p) none =
      (.ok [e.withUuid (some (fileUuidOf env e parent.uuid))],
       [.createFile e.name parent.uuid (contentTypeOf e),
        .uploadContent (some (fileUuidOf env e parent.uuid)) e.disk_location])
    ∧ (e.withUuid (some (fileUuidOf env e parent.uuid))).uuid ≠ none
    ∧ (e.withUuid (some (fileUuidOf env e parent.uuid))).from_service = false
    ∧ (∃ u2, upload env2 fuel2
          (e.withUuid (some (fileUuidOf env e parent.uuid))) (some p2) none =
        (.ok [(e.withUuid (some (fileUuidOf env e parent.uuid))).withUuid (some u2)],
         [.createFile e.name parent2.uuid (contentTypeOf e),
          .uploadContent (some u2) e.disk_location]))
    ∧ (∀ (pu : Option String) (eS : Entity), eS.from_service = true →
        loadOne env2 parent2.uuid pu eS =
          .error (.entityError
            "This entity was constructed from the service, it cannot be reuploded")) := by
  have h1 := upload_file_ok env fuel e p parent hfuel hc hq hk het hsvc hch hcount
  have het1 : (e.withUuid (some (fileUuidOf env e parent.uuid))).entity_type = "file" := by
    rw [entity_type_withUuid]; exact het
  have hsvc1 : (e.withUuid (some (fileUuidOf env e parent.uuid))).from_service = false := by
    rw [from_service_withUuid]; exact hsvc
  have hch1 : (e.withUuid (some (fileUuidOf env e parent.uuid))).children = [] := by
    rw [children_withUuid]; exact hch
  have hcount2' : env2.countOf parent2.uuid
      (e.withUuid (some (fileUuidOf env e parent.uuid))).entity_type
      (e.withUuid (some (fileUuidOf env e parent.uuid))).name = 0 := by
    rw [entity_type_withUuid, name_withUuid]; exact hcount2
  have h2 := upload_file_ok env2 fuel2
    (e.withUuid (some (fileUuidOf env e parent.uuid))) p2 parent2
    hfuel2 hc2 hq2 hk2 het1 hsvc1 hch1 hcount2'
  refine ⟨h1, by simp [uuid_withUuid], hsvc1,
    ⟨fileUuidOf env2 (e.withUuid (some (fileUuidOf env e parent.uuid))) parent2.uuid, ?_⟩,
    ?_⟩
  · rw [h2, name_withUuid, disk_location_withUuid, contentTypeOf_withUuid]
  · intro pu eS h
    rw [loadOne.eq_def, if_pos h]

theorem upload_promotes_uuid_only_not_provenance_witness :
    upload envC4a 2 entC4 (some "/dest1") none =
      (.ok [entC4.withUuid (some (fileUuidOf envC4a entC4 dictD1.uuid))],
       [.createFile entC4.name dictD1.uuid (contentTypeOf entC4),
        .uploadContent (some (fileUuidOf envC4a entC4 dictD1.uuid))
          entC4.disk_location])
    ∧ (entC4.withUuid (some (fileUuidOf envC4a entC4 dictD1.uuid))).uuid ≠ none
    ∧ (entC4.withUuid (some (fileUuidOf envC4a entC4 dictD1.uuid))).from_service = false
    ∧ (∃ u2, upload envC4b 2
          (entC4.withUuid (some (fileUuidOf envC4a entC4 dictD1.uuid))) (some "/dest2") none =
        (.ok [(entC4.withUuid (some (fileUuidOf envC4a entC4 dictD1.uuid))).withUuid (some u2)],
         [.createFile entC4.name dictD2.uuid (contentTypeOf entC4),
          .uploadContent (some u2) entC4.disk_location]))
    ∧ (∀ (pu : Option String) (eS : Entity), eS.from_service = true →
        loadOne envC4b dictD2.uuid pu eS =
          .error (.entityError
            "This entity was constructed from the service, it cannot be reuploded")) :=
  upload_promotes_uuid_only_not_provenance envC4a envC4b 2 2 entC4
    "/dest1" "/dest2" dictD1 dictD2 (by decide) (by decide) rfl rfl rfl rfl
    (by decide) (by decide) rfl rfl rfl (by decide) (by decide)

/-- C4 (counterexample to the claim as stated).  After a successful upload
of the disk-backed file `f.txt` to `/dest1` the entity carries
`uuid = some "fid-1"` yet is still marked as not-from-service, and a second
`upload` of the very same (now uuid-carrying) entity to the fresh
destination `/dest2` does not fail with an operation error: it succeeds and
performs a `create_file` call again. -/
theorem upload_reupload_not_blocked_counterexample :
    upload envC4a 2 entC4 (some "/dest1") none =
      (.ok [entC4.withUuid (some "fid-1")],
       [.createFile "f.txt" (some "D1") "text/plain",
        .uploadContent (some "fid-1") (some "/local/f.txt")])
    ∧ (entC4.withUuid (some "fid-1")).uuid = some "fid-1"
    ∧ (entC4.withUuid (some "fid-1")).from_service = false
    ∧ upload envC4b 2 (entC4.withUuid (some "fid-1")) (some "/dest2") none =
      (.ok [(entC4.withUuid (some "fid-1")).withUuid (some "fid-2")],
       [.createFile "f.txt" (some "D2") "text/plain",
        .uploadContent (some "fid-2") (some "/local/f.txt")]) :=
  ⟨rfl, rfl, rfl, rfl⟩

/-- C7 (amended).  The content type passed to `create_file` for a
disk-backed file is guessed from the recorded file path (whose basename is
the file's name), with the generic `application/octet-stream` as the
fallback when the extension is unknown; there is no notebook special case —
an `.ipynb` extension is not in the type table, so such files also fall
back to `application/octet-stream`. -/
theorem upload_content_type_guessed_octet_fallback
    (env : Env) (fuel : Nat) (e : Entity) (p : String) (parent : EntityDict)
    (loc : String)
    (hfuel : 1 ≤ fuel)
    (hc : env.clientSet = true)
    (hq : env.queryByPath p = .ok parent)
    (hk : parent.entity_type ∈ Entity.SUBTREE_TYPES)
    (het : e.entity_type = "file")
    (hsvc : e.from_service = false)
    (hch : e.children = [])
    (hcount : env.countOf parent.uuid e.entity_type e.name = 0)
    (hloc : e.disk_location = some loc) :
    upload env fuel e (some p) none =
      (.ok [e.withUuid (some (env.newFileUuid e.name parent.uuid
          ((guessType loc).getD "application/octet-stream")))],
       [.createFile e.name parent.uuid
          ((guessType loc).getD "application/octet-stream"),
        .uploadContent (some (env.newFileUuid e.name parent.uuid
          ((guessType loc).getD "application/octet-stream"))) e.disk_location])
    ∧ (fileExt loc = some ".ipynb" →
        (guessType loc).getD "application/octet-stream" =
          "application/octet-stream") := by
  have hct : contentTypeOf e = (guessType loc).getD "application/octet-stream" := by
    rw [contentTypeOf, hloc]
    rfl
  have h1 := upload_file_ok env fuel e p parent hfuel hc hq hk het hsvc hch hcount
  constructor
  · rw [h1, fileUuidOf, hct]
  · intro hext
    have hg : guessType loc = none := by
      simp only [guessType, hext]
      rfl
    rw [hg]
    rfl

theorem upload_content_type_guessed_octet_fallback_witness :
    (upload envC4a 2 entC4 (some "/dest1") none =
      (.ok [entC4.withUuid (some (envC4a.newFileUuid entC4.name dictD1.uuid
          ((guessType "/local/f.txt").getD "application/octet-stream")))],
       [.createFile entC4.name dictD1.uuid
          ((guessType "/local/f.txt").getD "application/octet-stream"),
        .uploadContent (some (envC4a.newFileUuid entC4.name dictD1.uuid
          ((guessType "/local/f.txt").getD "application/octet-stream")))
          entC4.disk_location])
    ∧ (fileExt "/local/f.txt" = some ".ipynb" →
        (guessType "/local/f.txt").getD "application/octet-stream" =
          "application/octet-stream")) :=
  upload_content_type_guessed_octet_fallback envC4a 2 entC4 "/dest1" dictD1
    "/local/f.txt" (by decide) rfl rfl (by decide) rfl rfl rfl (by decide) rfl

/-- C7 (counterexample to the claim as stated).  Uploading the notebook
file `nb.ipynb` issues a `create_file` whose content type is the generic
`application/octet-stream`, not an application-specific JSON type: the
claimed `.ipynb` special case does not exist in the code. -/
theorem upload_ipynb_octet_stream_counterexample :
    upload envC4a 2 entC7 (some "/dest1") none =
      (.ok [entC7.withUuid (some "fid-1")],
       [.createFile "nb.ipynb" (some "D1") "application/octet-stream",
        .uploadContent (some "fid-1") (some "/local/nb.ipynb")])
    ∧ ("application/octet-stream" : String) ≠ "application/x-ipynb+json" :=
  ⟨rfl, by decide⟩

/-- C8 (amended).  For a container entity and a non-string pattern,
`search_subtree` raises the `ArgumentError` — but the string-type check
sits after the lazy materialization: with a non-empty children cache the
error is raised with no gateway exchange, whereas with an empty cache the
whole `explore_subtree` (and its gateway calls, one `explore_children`
exchange per visited folder) runs first and only then is the
`ArgumentError` raised. -/
theorem search_subtree_nonstring_argument_error (env : Env) (fuel : Nat)
    (e : Entity) (ht : e.entity_type ∈ Entity.SUBTREE_TYPES) :
    (e.children.isEmpty = false →
      search_subtree env fuel e .nonStr =
        (.error (.argument "The expression needs to be given as a string"), []))
    ∧ (∀ visited e2, e.children.isEmpty = true →
        exploreSubtreeOrder env fuel e = .ok visited →
        exploreSubtreeTree env fuel e = .ok e2 →
        search_subtree env fuel e .nonStr =
          (.error (.argument "The expression needs to be given as a string"),
           visited)) := by
  constructor
  · intro hch
    rw [search_subtree, if_neg (not_not_intro ht)]
    simp [hch]
  · intro visited e2 hch hord htree
    rw [search_subtree, if_neg (not_not_intro ht)]
    simp [hch, hord, htree]

theorem search_subtree_nonstring_argument_error_witness :
    (entS8b.children.isEmpty = false →
      search_subtree envS8 5 entS8b .nonStr =
        (.error (.argument "The expression needs to be given as a string"), []))
    ∧ (∀ visited e2, entS8b.children.isEmpty = true →
        exploreSubtreeOrder envS8 5 entS8b = .ok visited →
        exploreSubtreeTree envS8 5 entS8b = .ok e2 →
        search_subtree envS8 5 entS8b .nonStr =
          (.error (.argument "The expression needs to be given as a string"),
           visited)) :=
  search_subtree_nonstring_argument_error envS8 5 entS8b (by decide)

/-- C8 (counterexample to the claim as stated).  On a container whose
children cache is empty, `search_subtree` with a non-string pattern does
raise the `ArgumentError`, but only after the lazy `explore_subtree`
materialization: the returned exchange log records one explored folder
(one gateway exchange), so the error is not raised before any network
call. -/
theorem search_subtree_network_before_type_check_counterexample :
    search_subtree envS8 5 entS8 .nonStr =
      (.error (.argument "The expression needs to be given as a string"),
       [entS8])
    ∧ (search_subtree envS8 5 entS8 .nonStr).2.length ≠ 0 :=
  ⟨rfl, by decide⟩

/-- C9 (amended).  The pending-container loop of `explore_subtree` is a
first-in-first-out queue (`insert(0, ...)` enqueues at the front of a list
that `pop()` dequeues from the back), so siblings are explored before any
of their descendants: the exploration order starts with the root followed
immediately by all of the root's container children in discovery order,
and every deeper container comes after them. -/
theorem explore_subtree_explores_siblings_first (env : Env) (fuel : Nat)
    (e e2 : Entity) (vs : List Entity)
    (ht : e.entity_type ∈ Entity.SUBTREE_TYPES)
    (hx : exploreChildrenE env e = .ok e2)
    (hvs : exploreSubtreeOrder env fuel e = .ok vs) :
    ∃ tail, vs =
      e :: ((e2.children.filter (fun c => c.entity_type == "folder")) ++ tail) := by
  rw [exploreSubtreeOrder, if_pos ht, pyWorklist_eq_qWorklist] at hvs
  have hr : ([e] : List Entity).reverse = [e] := rfl
  rw [hr] at hvs
  cases fuel with
  | zero => simp [qWorklist] at hvs
  | succ fuel =>
    simp only [qWorklist, explorePushF, hx] at hvs
    cases hrec : qWorklist (explorePushF env) fuel
        ([] ++ e2.children.filter (fun c => c.entity_type == "folder")) with
    | error err => rw [hrec] at hvs; cases hvs
    | ok vs1 =>
      rw [hrec] at hvs
      dsimp only at hvs
      cases hvs
      obtain ⟨t, ht2⟩ := qWorklist_starts_with_queue (explorePushF env) fuel
        ([] ++ e2.children.filter (fun c => c.entity_type == "folder")) vs1 hrec
      refine ⟨t, ?_⟩
      rw [ht2]
      simp

theorem explore_subtree_explores_siblings_first_witness :
    ∃ tail, [rootA, Entity.from_dictionary dictFB, Entity.from_dictionary dictFC,
             Entity.from_dictionary dictFD] =
      rootA :: (((rootA.withChildren [Entity.from_dictionary dictFB,
          Entity.from_dictionary dictFC]).children.filter
            (fun c => c.entity_type == "folder")) ++ tail) :=
  explore_subtree_explores_siblings_first envC9 10 rootA
    (rootA.withChildren [Entity.from_dictionary dictFB, Entity.from_dictionary dictFC])
    [rootA, Entity.from_dictionary dictFB, Entity.from_dictionary dictFC,
     Entity.from_dictionary dictFD]
    (by decide) rfl rfl

/-- C9 (counterexample to the claim as stated).  On the tree
A → {B → {D}, C} (two container siblings B and C, where the
first-discovered sibling B has the container descendant D), the
exploration order of `explore_subtree` is A, B, C, D: the later sibling C
is explored before B's subtree is finished (D comes last), so the
first-discovered child's subtree is not exhausted before later siblings —
the walk is breadth-first, not depth-first. -/
theorem explore_subtree_not_dfs_counterexample :
    exploreSubtreeOrder envC9 10 rootA =
      .ok [rootA, Entity.from_dictionary dictFB, Entity.from_dictionary dictFC,
           Entity.from_dictionary dictFD]
    ∧ [rootA, Entity.from_dictionary dictFB, Entity.from_dictionary dictFC,
       Entity.from_dictionary dictFD].map Entity.name = ["A", "B", "C", "D"]
    ∧ ["A", "B", "C", "D"].indexOf "C" < ["A", "B", "C", "D"].indexOf "D" :=
  ⟨rfl, rfl, by decide⟩

end HbpStorage
